import Mathlib

/-!
Shallow embedding of `src/bd_feedback_ptakizawa/feedback.py` (a course-evaluation
feedback aggregation pipeline) together with theorems settling the spec claims.

Python values are modelled as follows: floats become exact rationals (the type `Q`
below, kept kernel-computable), dynamically typed cells become `PyVal`, pandas
DataFrames become lists of typed row structures, and raisable exceptions become
`Except PyErr`.  `list(set(..))` is modelled as first-occurrence deduplication,
`sort` as stable insertion sort on the corresponding key.
-/

/-- Python exceptions that the embedded code can raise. -/
inductive PyErr where
  | indexError
  | valueError
deriving DecidableEq, Repr

deriving instance DecidableEq for Except

/-- Exact rational numbers with kernel-computable arithmetic
(the built-in `Rat` operations do not reduce inside `decide`). -/
structure Q where
  num : Int
  den : Nat
deriving DecidableEq, Repr

/-- Normalize a fraction by the gcd of numerator and denominator. -/
def Q.norm (a : Q) : Q :=
  let g := Nat.gcd a.num.natAbs a.den
  if g = 0 then a else ⟨a.num / (g : Int), a.den / g⟩

/-- Embed an integer. -/
def Q.ofInt (n : Int) : Q := ⟨n, 1⟩

/-- Embed a natural number. -/
def Q.ofNat (n : Nat) : Q := ⟨(n : Int), 1⟩

/-- Value equality of fractions (Python `==` on floats). -/
def Q.eqv (a b : Q) : Bool := a.num * (b.den : Int) = b.num * (a.den : Int)

/-- Value order: `a < b` (Python `<` on floats). -/
def Q.ltb (a b : Q) : Bool := a.num * (b.den : Int) < b.num * (a.den : Int)

/-- Value order: `a ≤ b` (Python `<=` on floats). -/
def Q.leb (a b : Q) : Bool := a.num * (b.den : Int) ≤ b.num * (a.den : Int)

/-- Addition. -/
def Q.add (a b : Q) : Q :=
  Q.norm ⟨a.num * (b.den : Int) + b.num * (a.den : Int), a.den * b.den⟩

/-- Multiplication. -/
def Q.mul (a b : Q) : Q := Q.norm ⟨a.num * b.num, a.den * b.den⟩

/-- Division (sign of the divisor moved to the numerator). -/
def Q.div (a b : Q) : Q :=
  Q.norm ⟨a.num * (b.den : Int) * (if b.num < 0 then -1 else 1), a.den * b.num.natAbs⟩

/-- Python `sum` over a list of numbers. -/
def qsum (l : List Q) : Q := l.foldl Q.add ⟨0, 1⟩

/-- Round a rational to the nearest integer, halves to even
(the tie-breaking used by Python `round`). -/
def Q.roundHalfEven (q : Q) : Int :=
  let f := q.num.fdiv (q.den : Int)
  let r := q.num - f * (q.den : Int)
  if 2 * r < (q.den : Int) then f
  else if (q.den : Int) < 2 * r then f + 1
  else if f % 2 = 0 then f else f + 1

/-- Python `round(q, d)`: round to `d` decimal places, halves to even. -/
def pyRound (d : Nat) (q : Q) : Q :=
  Q.norm ⟨Q.roundHalfEven ⟨q.num * ((10 ^ d : Nat) : Int), q.den⟩, 10 ^ d⟩

/-- A dynamically typed cell value: string, number, or missing. -/
inductive PyVal where
  | str (v : String)
  | num (q : Q)
  | null
deriving DecidableEq, Repr

/-- Does `pat` occur at the start of the character list? -/
def isPrefixCh : List Char → List Char → Bool
  | [], _ => true
  | _ :: _, [] => false
  | p :: ps, c :: cs => p = c && isPrefixCh ps cs

/-- Does `pat` occur anywhere in the character list? -/
def containsSub (pat : List Char) : List Char → Bool
  | [] => isPrefixCh pat []
  | c :: t => isPrefixCh pat (c :: t) || containsSub pat t

/-- Python `s.find(pat) != -1`: substring containment. -/
def containsStr (s pat : String) : Bool := containsSub pat.data s.data

/-- Parse a nonempty all-digit character list into a number. -/
def digitsVal : List Char → Nat → Option Nat
  | [], acc => some acc
  | c :: t, acc => if c.isDigit then digitsVal t (acc * 10 + (c.toNat - 48)) else none

/-- Parse a nonempty all-digit string (a `strptime` numeric field). -/
def parseNat (s : String) : Option Nat :=
  match s.data with
  | [] => none
  | l => digitsVal l 0

/-- Split a character list on a single separator character. -/
def splitOnChAux (sep : Char) (cur : List Char) : List Char → List (List Char)
  | [] => [cur.reverse]
  | c :: t => if c = sep then cur.reverse :: splitOnChAux sep [] t else splitOnChAux sep (c :: cur) t

/-- Split a string on a single separator character. -/
def splitCh (sep : Char) (s : String) : List (List Char) := splitOnChAux sep [] s.data

/-- `pd.to_datetime(_, format = "%Y-%m-%d")`: an ISO date, encoded as a
single number that orders chronologically. -/
def parseDate (s : String) : Option Nat :=
  match (splitCh '-' s).map (fun l => digitsVal l 0) with
  | [some y, some m, some d] =>
    if 1 ≤ m ∧ m ≤ 12 ∧ 1 ≤ d ∧ d ≤ 31 ∧ (splitCh '-' s).all (fun l => l ≠ []) then
      some (y * 10000 + m * 100 + d)
    else none
  | _ => none

/-- `pd.to_datetime(_, format = "%I:%M %p")`: a 12-hour clock time,
encoded as minutes after midnight. -/
def parseTime (s : String) : Option Nat :=
  match splitCh ' ' s with
  | [hm, ap] =>
    match (splitOnChAux ':' [] hm).map (fun l => digitsVal l 0) with
    | [some h, some m] =>
      if 1 ≤ h ∧ h ≤ 12 ∧ m ≤ 59 ∧ hm ≠ [] ∧ (ap = "AM".data ∨ ap = "PM".data) then
        some ((h % 12 + (if ap = "PM".data then 12 else 0)) * 60 + m)
      else none
    | _ => none
  | _ => none

/-- Python `list(set(xs))`, modelled as keeping the first occurrence of each
distinct element in order (CPython set order is unspecified). -/
def pyDedupAux [DecidableEq α] (seen : List α) : List α → List α
  | [] => []
  | a :: l => if a ∈ seen then pyDedupAux seen l else a :: pyDedupAux (a :: seen) l

/-- Python `list(set(xs))` (first-occurrence model). -/
def pyDedup [DecidableEq α] (l : List α) : List α := pyDedupAux [] l

/-- Python list indexing `l[i]`, with negative indices counting from the end
and `IndexError` out of bounds. -/
def pyIndex (l : List α) (i : Int) : Except PyErr α :=
  let j : Int := if i < 0 then i + l.length else i
  if h : 0 ≤ j ∧ j < (l.length : Int) then
    .ok (l.get ⟨j.toNat, by omega⟩)
  else .error .indexError

/-- Code-point lexicographic `<` on character lists (Python string `<`). -/
def charListLt : List Char → List Char → Bool
  | [], [] => false
  | [], _ :: _ => true
  | _ :: _, [] => false
  | a :: as, b :: bs => if a < b then true else if b < a then false else charListLt as bs

/-- Python string `<`. -/
def strLt (a b : String) : Bool := charListLt a.data b.data

/-- Python string `<=`. -/
def strLe (a b : String) : Bool := strLt a b || a = b

/-- `LARGE_GROUPS` from the source. -/
def LARGE_GROUPS : List String :=
  ["Lecture", "TBL", "Interactive Sessions", "Panel", "Clinical Correlations"]

/-- `SMALL_GROUPS` from the source. -/
def SMALL_GROUPS : List String := ["Workshop", "Lab"]

/-- One row of the uploaded feedback CSV. -/
structure FeedbackRow where
  courseName : String
  evalTitle : String
  evalName : String
  questionType : String
  questionText : String
  evaluateeFirst : String
  evaluateeLast : String
  responseValue : Q
  responseText : PyVal
deriving DecidableEq, Repr

/-- One row of the course-schedule CSV (`ID`, `Date`, `tFrom`, `cName`,
`iLearningTypeID`). -/
structure ScheduleRow where
  id : String
  date : PyVal
  tFrom : PyVal
  cName : String
  iLearningTypeID : String
deriving DecidableEq, Repr

/-- One row of the faculty-sessions CSV (`cLname`, `cFname`, `ID`). -/
structure FacultyRow where
  cLname : String
  cFname : String
  id : String
deriving DecidableEq, Repr

/-- One entry of the result of `get_sessions_for_names`. -/
structure FacultySession where
  name : String
  sessions : List String
deriving DecidableEq, Repr

/-- One entry of the `ratings` list built by
`generate_ratings_and_comments_for_name`: a number or Python `None`. -/
inductive RatingEntry where
  | num (q : Q)
  | null
deriving DecidableEq, Repr

/-- `generate_feedback_info`: course name, feedback type and evaluation number
from the feedback table.  Embeds lines 30-56 of the source. -/
def generate_feedback_info (df : List FeedbackRow) : Except PyErr (String × String × Int) :=
  let course := pyDedup (df.map (·.courseName))
  let course_name := match course with
    | [c] => c
    | _ => "Multiple courses detected"
  match pyDedup (df.map (·.evalTitle)) with
  | [] => .error .indexError
  | eval_title :: _ =>
    let feedback_type :=
      if containsStr eval_title "Large Group" then "Large Group"
      else if containsStr eval_title "Workshop/Lab" then "Small Group"
      else "Feedback type not detected"
    match pyDedup (df.map (·.evalName)) with
    | [] => .error .indexError
    | eval_name :: _ =>
      match eval_name.data.getLast? with
      | none => .error .indexError
      | some c =>
        if c.isDigit then .ok (course_name, feedback_type, ((c.toNat - 48 : Nat) : Int))
        else .error .valueError

/-- `pd.to_datetime` on one cell: parse a raw string, pass a parsed value
through, fail on a missing value. -/
def parseCellWith (p : String → Option Nat) : PyVal → Option PyVal
  | .str v => (p v).map (fun n => .num (Q.ofNat n))
  | .num q => some (.num q)
  | .null => none

/-- Parse the `Date` and `tFrom` cells of one schedule row. -/
def parseRow (r : ScheduleRow) : Option ScheduleRow :=
  match parseCellWith parseDate r.date, parseCellWith parseTime r.tFrom with
  | some d, some t => some { r with date := d, tFrom := t }
  | _, _ => none

/-- Parse the `Date` and `tFrom` columns of the whole schedule
(lines 71-72 of the source); any malformed cell raises. -/
def parseSchedule : List ScheduleRow → Option (List ScheduleRow)
  | [] => some []
  | r :: rest =>
    match parseRow r, parseSchedule rest with
    | some r2, some rest2 => some (r2 :: rest2)
    | _, _ => none

/-- The numeric value of a parsed cell. -/
def numValQ : PyVal → Q
  | .num q => q
  | _ => ⟨0, 1⟩

/-- The sort key order of `schedule.sort_values(by = ["Date", "tFrom"])`. -/
def schedLeB (a b : ScheduleRow) : Bool :=
  Q.ltb (numValQ a.date) (numValQ b.date) ||
    (numValQ a.date = numValQ b.date && Q.leb (numValQ a.tFrom) (numValQ b.tFrom))

/-- Sort the parsed schedule by (`Date`, `tFrom`) ascending (line 73). -/
def sortSchedule (l : List ScheduleRow) : List ScheduleRow :=
  l.insertionSort (fun a b => schedLeB a b = true)

/-- Row positions of the sorted schedule whose `iLearningTypeID` contains
`"Assessment"` (line 75; after `reset_index` the index labels are positions). -/
def assessmentPositions (rows : List ScheduleRow) : List Nat :=
  rows.enum.filterMap (fun p => if containsStr p.2.iLearningTypeID "Assessment" then some p.1 else none)

/-- The assessment positions with `0` prepended (line 76). -/
def scheduleBoundaries (rows : List ScheduleRow) : List Nat :=
  0 :: assessmentPositions rows

/-- Python positional slice `rows[lo:hi]` for nonnegative bounds. -/
def rawWindow (rows : List ScheduleRow) (lo hi : Nat) : List ScheduleRow :=
  (rows.drop lo).take (hi - lo)

/-- The session-type filter applied to the window (lines 78-81): large-group
and small-group categories filter, any other category leaves the window as is. -/
def categoryFilter (feedback_type : String) (w : List ScheduleRow) : List ScheduleRow :=
  if feedback_type = "Large Group" then w.filter (fun r => r.iLearningTypeID ∈ LARGE_GROUPS)
  else if feedback_type = "Small Group" then w.filter (fun r => r.iLearningTypeID ∈ SMALL_GROUPS)
  else w

/-- `generate_schedule_for_evaluation` (lines 58-82).  The first component of
the result is the post-state of the caller's schedule (the function mutates its
argument in place: parsed columns, re-sorted rows, reset index); the second is
the returned window. -/
def generate_schedule_for_evaluation (schedule : List ScheduleRow) (evaluation_number : Int)
    (feedback_type : String) : Except PyErr (List ScheduleRow × List ScheduleRow) :=
  match parseSchedule schedule with
  | none => .error .valueError
  | some parsed =>
    let sorted := sortSchedule parsed
    let b := scheduleBoundaries sorted
    match pyIndex b (evaluation_number - 1), pyIndex b evaluation_number with
    | .ok lo, .ok hi => .ok (sorted, categoryFilter feedback_type (rawWindow sorted lo hi))
    | .error e, _ => .error e
    | .ok _, .error e => .error e

/-- `generate_questions_from_evaluation` (lines 84-101): distinct rating
questions, with sensitive-topic questions removed. -/
def generate_questions_from_evaluation (feedback : List FeedbackRow) : List String :=
  let ratings_df := feedback.filter (fun r => r.questionType = "Radio")
  let radio_questions :=
    pyDedup ((ratings_df.filter (fun r => r.questionType = "Radio")).map (·.questionText))
  radio_questions.filter
    (fun q => !containsStr q "offensive remarks" && !containsStr q "mistreatment")

/-- `generate_faculty_names` (lines 103-119): distinct (last, first) pairs,
sorted. -/
def generate_faculty_names (feedback : List FeedbackRow) : List (String × String) :=
  let first_name := feedback.map (·.evaluateeFirst)
  let last_name := feedback.map (·.evaluateeLast)
  let full_name := last_name.zip first_name
  (pyDedup full_name).insertionSort
    (fun a b => (strLt a.1 b.1 || (a.1 = b.1 && strLe a.2 b.2)) = true)

/-- `get_sessions_for_names` (lines 165-200). -/
def get_sessions_for_names (names : List (String × String)) (schedule : List ScheduleRow)
    (sessions : List FacultyRow) : List FacultySession :=
  let schedule_ids := (schedule.map (·.id)).insertionSort (fun a b => strLe a b = true)
  names.map (fun nm =>
    let last_name := nm.1
    let first_name := nm.2
    let full_name := first_name ++ " " ++ last_name
    let sessions_taught := sessions.filter (fun r => r.cLname = last_name ∧ r.cFname = first_name)
    let session_ids := pyDedup (sessions_taught.map (·.id))
    let session_titles :=
      if session_ids.length > 0 then
        session_ids.foldl (fun acc i =>
          if i ∈ schedule_ids then
            acc ++ [((schedule.filter (fun r => r.id = i)).map (·.cName)).headD ""]
          else acc) []
      else ["No sessions found"]
    ⟨full_name, session_titles⟩)

/-- `generate_ratings_and_comments_for_name` (lines 203-250): per-instructor
rating statistics and comments. -/
def generate_ratings_and_comments_for_name (feedback : List FeedbackRow) (nm : String × String)
    (questions_to_evaluate : List String) : String × List RatingEntry × List String :=
  let last_name := nm.1
  let first_name := nm.2
  let name := first_name ++ " " ++ last_name
  let temp_df := feedback.filter (fun r => r.evaluateeLast = last_name ∧ r.evaluateeFirst = first_name)
  let ratings := questions_to_evaluate.foldl (fun acc question =>
    let question_df := temp_df.filter (fun r => r.questionText = question)
    let responses := question_df.map (·.responseValue)
    let non_zero_responses := responses.filter (fun v => Q.ltb ⟨0, 1⟩ v)
    if non_zero_responses.length > 0 then
      let avg := pyRound 1 (Q.div (qsum non_zero_responses) (Q.ofNat non_zero_responses.length))
      let fav := Q.mul (pyRound 3 (Q.div
        (Q.ofNat (non_zero_responses.countP (fun v => Q.eqv v (Q.ofNat 5)) +
          non_zero_responses.countP (fun v => Q.eqv v (Q.ofNat 4))))
        (Q.ofNat non_zero_responses.length))) (Q.ofNat 100)
      let unf := Q.mul (pyRound 3 (Q.div
        (Q.ofNat (non_zero_responses.countP (fun v => Q.eqv v (Q.ofNat 1)) +
          non_zero_responses.countP (fun v => Q.eqv v (Q.ofNat 2))))
        (Q.ofNat non_zero_responses.length))) (Q.ofNat 100)
      acc ++ [.num avg, .num (Q.ofNat non_zero_responses.length), .num fav, .num unf]
    else
      acc ++ [.null, .num (Q.ofNat 0), .null, .null]) []
  let faculty_comments := (temp_df.filter (fun r => r.questionType = "Text")).map (·.responseText)
  let faculty_comments := faculty_comments.filterMap (fun c =>
    match c with
    | .str v => if containsStr v "-----" then none else some v
    | _ => none)
  let comments := if faculty_comments.length > 0 then faculty_comments else ["No comments"]
  (name, ratings, comments)

/-- The UI-selected globals `course`, `feedback_type` and `feedback_number`
(lines 314-316), which `process_feedback_data` reads as module globals. -/
structure UIGlobals where
  course : String
  feedback_type : String
  feedback_number : Int
deriving DecidableEq, Repr

/-- The observable artifacts assembled by `process_feedback_data`: table rows,
two-level columns, optional sessions column, grouped comments, the docx heading
and the download bundle name. -/
structure ProcessOutput where
  rowNames : List String
  ratingRows : List (List RatingEntry)
  columnQuestions : List String
  sessionsColumn : Option (List String)
  commentGroups : List (String × List String)
  docHeading : String
  zipName : String
deriving DecidableEq, Repr

/-- The sessions cell for one instructor inside the per-name loop
(lines 288-290): first matching attributor entry, joined with `", "`;
indexing `[0]` on no match raises. -/
def sessionsForEntry (st : Option (List FacultySession)) (fn : String) :
    Except PyErr (Option String) :=
  match st with
  | none => .ok none
  | some stl =>
    match (stl.filter (fun it => it.name = fn)).map (·.sessions) with
    | [] => .error .indexError
    | fs :: _ => .ok (some (String.intercalate ", " fs))

/-- The per-name loop of `process_feedback_data` (lines 283-290). -/
def processEntries (feedback : List FeedbackRow) (questions : List String)
    (st : Option (List FacultySession)) :
    List (String × String) → Except PyErr (List (String × List RatingEntry × List String × Option String))
  | [] => .ok []
  | nm :: rest =>
    let r := generate_ratings_and_comments_for_name feedback nm questions
    match sessionsForEntry st r.1 with
    | .error e => .error e
    | .ok s =>
      match processEntries feedback questions st rest with
      | .error e => .error e
      | .ok t => .ok ((r.1, r.2.1, r.2.2, s) :: t)

/-- The optional session-attribution stage of `process_feedback_data`
(lines 269-277): runs the Schedule Windower and Session Attributor when both
optional tables are supplied, else yields Python `None`. -/
def sessionsStage (g : UIGlobals) (full_names : List (String × String))
    (schedule : Option (List ScheduleRow)) (faculty : Option (List FacultyRow)) :
    Except PyErr (Option (List FacultySession)) :=
  match schedule, faculty with
  | some sch, some fac =>
    match generate_schedule_for_evaluation sch g.feedback_number g.feedback_type with
    | .error e => .error e
    | .ok (_, schedule_for_eval) => .ok (some (get_sessions_for_names full_names schedule_for_eval fac))
  | _, _ => .ok none

/-- The report-assembly stage of `process_feedback_data` (lines 292-308):
table rows and columns, the optional sessions column (inserted only when its
length matches the row count), the grouped comments, and the two output labels
built from the UI globals. -/
def assembleOutput (g : UIGlobals) (questions : List String)
    (entries : List (String × List RatingEntry × List String × Option String)) :
    ProcessOutput :=
  let names := entries.map (·.1)
  let sessions := entries.filterMap (·.2.2.2)
  { rowNames := names
    ratingRows := entries.map (·.2.1)
    columnQuestions := questions
    sessionsColumn := if sessions.length = names.length then some sessions else none
    commentGroups := entries.map (fun e => (e.1, e.2.2.1))
    docHeading := g.course ++ " - " ++ g.feedback_type
    zipName := g.course ++ " " ++ g.feedback_type ++ " Feedback.zip" }

/-- `process_feedback_data` (lines 252-309).  The `course`, `feedback_type` and
`feedback_number` used for windowing and labeling are the UI globals `g`; the
call to `generate_feedback_info` is commented out in the source (line 265). -/
def process_feedback_data (g : UIGlobals) (feedback : List FeedbackRow)
    (schedule : Option (List ScheduleRow)) (faculty : Option (List FacultyRow)) :
    Except PyErr ProcessOutput :=
  let questions := generate_questions_from_evaluation feedback
  let full_names := generate_faculty_names feedback
  match sessionsStage g full_names schedule faculty with
  | .error e => .error e
  | .ok st =>
    match processEntries feedback questions st full_names with
    | .error e => .error e
    | .ok entries => .ok (assembleOutput g questions entries)

/-- Feedback row for the C1 rating example: rating question `"Q1"` answered
with value `v` about instructor (Smith, Jane). -/
def c1Row (v : Int) : FeedbackRow :=
  { courseName := "Anatomy", evalTitle := "T", evalName := "E1", questionType := "Radio",
    questionText := "Q1", evaluateeFirst := "Jane", evaluateeLast := "Smith",
    responseValue := ⟨v, 1⟩, responseText := .null }

/-- The C1 example responses `[0, 0, 5, 4, 3]`. -/
def c1Feedback : List FeedbackRow := [c1Row 0, c1Row 0, c1Row 5, c1Row 4, c1Row 3]

/-- Feedback row with a given course name (for the mixed-course example). -/
def c2Row (course : String) : FeedbackRow :=
  { courseName := course, evalTitle := "T", evalName := "E1", questionType := "Radio",
    questionText := "Q1", evaluateeFirst := "Jane", evaluateeLast := "Smith",
    responseValue := ⟨5, 1⟩, responseText := .null }

/-- A two-row table with two distinct course values. -/
def c2Df : List FeedbackRow := [c2Row "A", c2Row "B"]

/-- A parsed, sorted schedule row that is a lecture. -/
def exSched3Row1 : ScheduleRow := ⟨"1", .num ⟨1, 1⟩, .num ⟨0, 1⟩, "Alpha", "Lecture"⟩

/-- A parsed, sorted schedule row that is an assessment. -/
def exSched3Row2 : ScheduleRow := ⟨"2", .num ⟨2, 1⟩, .num ⟨0, 1⟩, "Beta", "Assessment"⟩

/-- A two-row schedule whose evaluation-1 window is the lecture row. -/
def exSched3 : List ScheduleRow := [exSched3Row1, exSched3Row2]

/-- Row `i` of the 21-row schedule with assessment markers at positions
5, 12 and 20. -/
def exRow (i : Nat) : ScheduleRow :=
  { id := toString i, date := .num ⟨(i : Int), 1⟩, tFrom := .num ⟨0, 1⟩,
    cName := "S" ++ toString i,
    iLearningTypeID := if i = 5 ∨ i = 12 ∨ i = 20 then "Assessment" else "Lecture" }

/-- The 21-row schedule with assessment markers at sorted positions
`[5, 12, 20]`. -/
def exSched : List ScheduleRow := (List.range 21).map exRow

/-- A one-row schedule with no assessment markers. -/
def exSched6 : List ScheduleRow := [⟨"1", .num ⟨1, 1⟩, .num ⟨0, 1⟩, "Alpha", "Lecture"⟩]

/-- A raw (string-cell) schedule whose rows are out of date order. -/
def w10sched : List ScheduleRow :=
  [⟨"1", .str "2024-01-02", .str "9:00 AM", "Alpha", "Assessment"⟩,
   ⟨"2", .str "2024-01-01", .str "10:00 AM", "Beta", "Lecture"⟩]

/-- The post-state of `w10sched` after the windower's in-place parse and sort. -/
def w10post : List ScheduleRow :=
  [⟨"2", .num ⟨20240101, 1⟩, .num ⟨600, 1⟩, "Beta", "Lecture"⟩,
   ⟨"1", .num ⟨20240102, 1⟩, .num ⟨540, 1⟩, "Alpha", "Assessment"⟩]

/-- The window the windower returns for `w10sched`, evaluation 1, large group. -/
def w10win : List ScheduleRow := [⟨"2", .num ⟨20240101, 1⟩, .num ⟨600, 1⟩, "Beta", "Lecture"⟩]

/-- One instructor name for the session-attribution examples. -/
def c7Names : List (String × String) := [("Lee", "Ann")]

/-- One teaching assignment: (Lee, Ann) taught session `"7"`. -/
def c7Faculty : List FacultyRow := [⟨"Lee", "Ann", "7"⟩]

/-- A windowed schedule that does not contain session `"7"`. -/
def c7Schedule : List ScheduleRow := [⟨"9", .num ⟨1, 1⟩, .num ⟨0, 1⟩, "Session9", "Lecture"⟩]

/-- A one-row feedback table whose metadata would parse as
(`"Anatomy"`, `"Large Group"`, 1). -/
def c4Feedback : List FeedbackRow :=
  [{ courseName := "Anatomy", evalTitle := "Anatomy Large Group Feedback", evalName := "Evaluation 1",
     questionType := "Radio", questionText := "Q", evaluateeFirst := "Jane", evaluateeLast := "Smith",
     responseValue := ⟨5, 1⟩, responseText := .null }]

/-- The output `process_feedback_data` produces for `c4Feedback` under the
UI globals (`"ILCE"`, `"Small Group"`, 2). -/
def c4Out : ProcessOutput :=
  { rowNames := ["Jane Smith"]
    ratingRows := [[.num ⟨5, 1⟩, .num ⟨1, 1⟩, .num ⟨100, 1⟩, .num ⟨0, 1⟩]]
    columnQuestions := ["Q"]
    sessionsColumn := none
    commentGroups := [("Jane Smith", ["No comments"])]
    docHeading := "ILCE - Small Group"
    zipName := "ILCE Small Group Feedback.zip" }

/-- The output `process_feedback_data` produces for an empty table under the
UI globals (`"C"`, `"T"`, 1). -/
def c4wOut : ProcessOutput :=
  { rowNames := []
    ratingRows := []
    columnQuestions := []
    sessionsColumn := some []
    commentGroups := []
    docHeading := "C - T"
    zipName := "C T Feedback.zip" }

/-- A free-text feedback row about (Smith, Jane) with the given response cell. -/
def c8Row (c : PyVal) : FeedbackRow :=
  { courseName := "A", evalTitle := "T", evalName := "E1", questionType := "Text",
    questionText := "Comments", evaluateeFirst := "Jane", evaluateeLast := "Smith",
    responseValue := ⟨0, 1⟩, responseText := c }

/-- The C8 example responses: a comment, a separator marker, a non-string
and another comment. -/
def c8Feedback : List FeedbackRow :=
  [c8Row (.str "Great job"), c8Row (.str "-----"), c8Row (.num ⟨42, 1⟩), c8Row (.str "Needs work")]

/-- A one-row feedback table with an unobjectionable rating question. -/
def c9Feedback : List FeedbackRow :=
  [{ courseName := "A", evalTitle := "T", evalName := "E1", questionType := "Radio",
     questionText := "How clear was the presentation", evaluateeFirst := "Jane",
     evaluateeLast := "Smith", responseValue := ⟨5, 1⟩, responseText := .null }]

theorem pyIndex_err_of_ge (l : List α) (i : Int) (h : (l.length : Int) ≤ i) :
    pyIndex l i = .error .indexError := by
  unfold pyIndex
  dsimp only
  rw [dif_neg]
  have h0 : ¬ i < 0 := by omega
  rw [if_neg h0]
  omega

theorem pyIndex_error_elim (l : List α) (i : Int) (e : PyErr)
    (h : pyIndex l i = .error e) : e = .indexError := by
  unfold pyIndex at h
  dsimp only at h
  by_cases h2 : 0 ≤ (if i < 0 then i + l.length else i) ∧ (if i < 0 then i + l.length else i) < (l.length : Int)
  · rw [dif_pos h2] at h
    cases h
  · rw [dif_neg h2] at h
    injection h with h3
    exact h3.symm

theorem parseRow_date_num (r r2 : ScheduleRow) (h : parseRow r = some r2) :
    ∃ q, r2.date = PyVal.num q := by
  unfold parseRow at h
  cases hd : parseCellWith parseDate r.date with
  | none => rw [hd] at h; cases h
  | some d =>
    rw [hd] at h
    cases ht : parseCellWith parseTime r.tFrom with
    | none => rw [ht] at h; cases h
    | some t =>
      rw [ht] at h
      cases h
      unfold parseCellWith at hd
      cases hdd : r.date with
      | str v =>
        rw [hdd] at hd
        dsimp only at hd
        cases hpd : parseDate v with
        | none => rw [hpd] at hd; cases hd
        | some nn =>
          rw [hpd] at hd
          simp at hd
          exact ⟨_, hd.symm⟩
      | num q =>
        rw [hdd] at hd
        dsimp only at hd
        simp only [Option.some.injEq] at hd
        exact ⟨q, hd.symm⟩
      | null => rw [hdd] at hd; dsimp only at hd; cases hd

theorem parseSchedule_mem_num (s p : List ScheduleRow) (hp : parseSchedule s = some p) :
    ∀ r ∈ p, ∃ q, r.date = PyVal.num q := by
  induction s generalizing p with
  | nil =>
    unfold parseSchedule at hp
    cases hp
    intro r hr
    cases hr
  | cons a t ih =>
    unfold parseSchedule at hp
    cases ha : parseRow a with
    | none => rw [ha] at hp; cases hp
    | some a2 =>
      rw [ha] at hp
      cases ht : parseSchedule t with
      | none => rw [ht] at hp; cases hp
      | some t2 =>
        rw [ht] at hp
        cases hp
        intro r hr
        rcases List.mem_cons.mp hr with h | h
        · subst h
          exact parseRow_date_num a r ha
        · exact ih t2 ht r h

theorem filter_name_type (l : List FeedbackRow) (nm : String × String) :
    (l.filter (fun r => r.evaluateeLast = nm.1 ∧ r.evaluateeFirst = nm.2)).filter
        (fun r => r.questionType = "Text") =
      l.filter (fun r => r.evaluateeLast = nm.1 ∧ r.evaluateeFirst = nm.2 ∧ r.questionType = "Text") := by
  rw [List.filter_filter]
  apply List.filter_congr
  intro a _
  by_cases h1 : a.evaluateeLast = nm.1 <;> by_cases h2 : a.evaluateeFirst = nm.2 <;>
    by_cases h3 : a.questionType = "Text" <;> simp [h1, h2, h3]

/-- C1 counterexample: on responses `[0, 0, 5, 4, 3]` the Rating Aggregator
returns percent-favorable `66.7` (the value `round(2/3, 3) * 100`), which is
not `67` as the claim states. -/
theorem ratingAggregator_favorable_not_67 :
    generate_ratings_and_comments_for_name c1Feedback ("Smith", "Jane") ["Q1"] =
      ("Jane Smith", [.num ⟨4, 1⟩, .num ⟨3, 1⟩, .num ⟨667, 10⟩, .num ⟨0, 1⟩], ["No comments"]) ∧
    Q.eqv ⟨667, 10⟩ ⟨67, 1⟩ = false := by
  decide

/-- C1 (amended): on responses `[0, 0, 5, 4, 3]` the Rating Aggregator discards
the zeros and returns average `4.0`, count `3`, percent-favorable `66.7`
(`round(2/3, 3) * 100`, not further rounded to an integer) and
percent-unfavorable `0`. -/
theorem ratingAggregator_zero_discard_stats :
    generate_ratings_and_comments_for_name c1Feedback ("Smith", "Jane") ["Q1"] =
      ("Jane Smith",
        [.num (Q.ofNat 4), .num (Q.ofNat 3), .num ⟨667, 10⟩, .num (Q.ofNat 0)],
        ["No comments"]) := by
  decide

/-- C2 counterexample: on a zero-row response table the Metadata Extractor
raises an uncaught `IndexError` (from `list(set(df["EvalTitle"]))[0]`) instead
of degrading gracefully. -/
theorem feedback_info_empty_table_raises :
    generate_feedback_info ([] : List FeedbackRow) = .error .indexError := by
  decide

/-- C2 (amended): for a nonempty table whose evaluation name ends in a digit,
multiple distinct course values produce the explicit `"Multiple courses
detected"` marker without raising; the zero-row case, however, raises an
uncaught index error. -/
theorem feedback_info_multiple_courses_marker (df : List FeedbackRow)
    (t n0 : String) (ts ns : List String) (c : Char)
    (hc : (pyDedup (df.map (·.courseName))).length ≠ 1)
    (ht : pyDedup (df.map (·.evalTitle)) = t :: ts)
    (hn : pyDedup (df.map (·.evalName)) = n0 :: ns)
    (hlast : n0.data.getLast? = some c) (hd : c.isDigit = true) :
    (generate_feedback_info df).map (fun x => x.1) = .ok "Multiple courses detected" := by
  unfold generate_feedback_info
  rw [ht, hn]
  dsimp only
  rw [hlast]
  dsimp only
  rw [hd]
  rcases hq : pyDedup (df.map (·.courseName)) with _ | ⟨a, _ | ⟨b, l2⟩⟩
  · rw [hq]; rfl
  · exact absurd (by rw [hq]; rfl) hc
  · rw [hq]; rfl

/-- Witness for the C2 amended theorem at the concrete two-course table. -/
theorem feedback_info_multiple_courses_marker_witness :
    (generate_feedback_info c2Df).map (fun x => x.1) = .ok "Multiple courses detected" :=
  feedback_info_multiple_courses_marker c2Df "T" "E1" [] [] '1'
    (by decide) (by decide) (by decide) (by decide) (by decide)

/-- C3 counterexample: for the unrecognized category `"Other"` the Schedule
Windower returns the whole (nonempty) window, not an empty slice. -/
theorem schedule_window_unrecognized_category_not_empty :
    generate_schedule_for_evaluation exSched3 1 "Other" = .ok (exSched3, [exSched3Row1]) ∧
    ([exSched3Row1] : List ScheduleRow) ≠ [] ∧
    "Other" ≠ "Large Group" ∧ "Other" ≠ "Small Group" := by
  decide

/-- C3 (amended): for a feedback category that is neither `"Large Group"` nor
`"Small Group"`, the Schedule Windower returns the evaluation window with no
session-type filtering applied at all (not an empty slice). -/
theorem schedule_window_unrecognized_category_unfiltered
    (schedule : List ScheduleRow) (n : Int) (ft : String)
    (h1 : ft ≠ "Large Group") (h2 : ft ≠ "Small Group")
    (post win : List ScheduleRow) (lo hi : Nat)
    (hlo : pyIndex (scheduleBoundaries post) (n - 1) = .ok lo)
    (hhi : pyIndex (scheduleBoundaries post) n = .ok hi)
    (hok : generate_schedule_for_evaluation schedule n ft = .ok (post, win)) :
    win = rawWindow post lo hi := by
  unfold generate_schedule_for_evaluation at hok
  cases hp : parseSchedule schedule with
  | none => rw [hp] at hok; cases hok
  | some parsed =>
    rw [hp] at hok
    dsimp only at hok
    cases hlo2 : pyIndex (scheduleBoundaries (sortSchedule parsed)) (n - 1) with
    | error e => rw [hlo2] at hok; cases hok
    | ok lo2 =>
      rw [hlo2] at hok
      cases hhi2 : pyIndex (scheduleBoundaries (sortSchedule parsed)) n with
      | error e => rw [hhi2] at hok; cases hok
      | ok hi2 =>
        rw [hhi2] at hok
        dsimp only at hok
        injection hok with hok2
        have hpost : sortSchedule parsed = post := congrArg Prod.fst hok2
        have hwin : categoryFilter ft (rawWindow (sortSchedule parsed) lo2 hi2) = win :=
          congrArg Prod.snd hok2
        rw [hpost] at hlo2 hhi2
        rw [hlo2] at hlo
        rw [hhi2] at hhi
        injection hlo with hlo3
        injection hhi with hhi3
        subst hlo3
        subst hhi3
        rw [← hwin, ← hpost]
        unfold categoryFilter
        rw [if_neg h1, if_neg h2]

/-- Witness for the C3 amended theorem at the concrete two-row schedule. -/
theorem schedule_window_unrecognized_category_unfiltered_witness :
    ([exSched3Row1] : List ScheduleRow) = rawWindow exSched3 0 1 :=
  schedule_window_unrecognized_category_unfiltered exSched3 1 "Other"
    (by decide) (by decide) exSched3 [exSched3Row1] 0 1 (by decide) (by decide) (by decide)

/-- C4 counterexample: the Metadata Extractor would derive
(`"Anatomy"`, `"Large Group"`, 1) from the response table, but the pipeline
labels its output with the UI-selected globals (`"ILCE"`, `"Small Group"`, 2):
the metadata used for labeling is not derived from the raw responses. -/
theorem process_labels_ignore_metadata_extractor :
    generate_feedback_info c4Feedback = .ok ("Anatomy", "Large Group", 1) ∧
    process_feedback_data ⟨"ILCE", "Small Group", 2⟩ c4Feedback none none = .ok c4Out ∧
    c4Out.zipName ≠ "Anatomy" ++ " " ++ "Large Group" ++ " Feedback.zip" ∧
    c4Out.docHeading ≠ "Anatomy" ++ " - " ++ "Large Group" := by
  decide

/-- C4 (amended): the course name, feedback category and evaluation number used
for windowing and labeling are the UI-selected globals; in particular every
successful run's bundle name and document heading are built from the globals
alone, independently of the response table (the `generate_feedback_info` call
in the pipeline is commented out). -/
theorem process_labels_from_ui_globals (g : UIGlobals) (feedback : List FeedbackRow)
    (schedule : Option (List ScheduleRow)) (faculty : Option (List FacultyRow))
    (out : ProcessOutput)
    (hok : process_feedback_data g feedback schedule faculty = .ok out) :
    out.zipName = g.course ++ " " ++ g.feedback_type ++ " Feedback.zip" ∧
    out.docHeading = g.course ++ " - " ++ g.feedback_type := by
  unfold process_feedback_data at hok
  dsimp only at hok
  cases hst : sessionsStage g (generate_faculty_names feedback) schedule faculty with
  | error e => rw [hst] at hok; cases hok
  | ok st =>
    rw [hst] at hok
    dsimp only at hok
    cases hpe : processEntries feedback (generate_questions_from_evaluation feedback) st
        (generate_faculty_names feedback) with
    | error e => rw [hpe] at hok; cases hok
    | ok entries =>
      rw [hpe] at hok
      injection hok with h
      subst h
      exact ⟨rfl, rfl⟩

/-- Witness for the C4 amended theorem at a concrete empty run. -/
theorem process_labels_from_ui_globals_witness :
    c4wOut.zipName = "C" ++ " " ++ "T" ++ " Feedback.zip" ∧
    c4wOut.docHeading = "C" ++ " - " ++ "T" :=
  process_labels_from_ui_globals ⟨"C", "T", 1⟩ [] none none c4wOut (by decide)

/-- C5: the Schedule Windower parses and sorts the schedule, prepends `0` to
the ordered assessment positions, and returns the half-open row range
`[boundary (N-1), boundary N)` of the sorted schedule (then category-filters
it): the window's length is `min (hi - lo) (length - lo)` and its `i`-th row is
the sorted schedule's row at position `lo + i`. -/
theorem schedule_window_half_open (schedule : List ScheduleRow) (n : Int) (ft : String)
    (parsed : List ScheduleRow) (hp : parseSchedule schedule = some parsed)
    (lo hi : Nat)
    (hlo : pyIndex (scheduleBoundaries (sortSchedule parsed)) (n - 1) = .ok lo)
    (hhi : pyIndex (scheduleBoundaries (sortSchedule parsed)) n = .ok hi) :
    generate_schedule_for_evaluation schedule n ft =
      .ok (sortSchedule parsed, categoryFilter ft (rawWindow (sortSchedule parsed) lo hi)) ∧
    (rawWindow (sortSchedule parsed) lo hi).length =
      min (hi - lo) ((sortSchedule parsed).length - lo) ∧
    ∀ i, i < hi - lo →
      (rawWindow (sortSchedule parsed) lo hi)[i]? = (sortSchedule parsed)[lo + i]? := by
  refine ⟨?_, ?_, ?_⟩
  · unfold generate_schedule_for_evaluation
    rw [hp]
    dsimp only
    rw [hlo, hhi]
  · simp only [rawWindow, List.length_take, List.length_drop]
  · intro i hilt
    simp [rawWindow, List.getElem?_take, List.getElem?_drop, hilt]

/-- Witness for C5 at the 21-row schedule with assessment markers at positions
`[5, 12, 20]` and evaluation number 2: the window is rows `[5, 12)`. -/
theorem schedule_window_half_open_witness :
    generate_schedule_for_evaluation exSched 2 "Other" =
      .ok (sortSchedule exSched, categoryFilter "Other" (rawWindow (sortSchedule exSched) 5 12)) :=
  (schedule_window_half_open exSched 2 "Other" exSched (by decide) 5 12
    (by decide) (by decide)).1

/-- C6: if the evaluation number exceeds the number of assessment boundaries
found in the (successfully parsed) schedule, the Schedule Windower fails with
an index error instead of returning a truncated or empty window. -/
theorem schedule_window_index_error_on_excess (schedule : List ScheduleRow) (n : Int)
    (ft : String) (parsed : List ScheduleRow) (hp : parseSchedule schedule = some parsed)
    (hn : ((assessmentPositions (sortSchedule parsed)).length : Int) < n) :
    generate_schedule_for_evaluation schedule n ft = .error .indexError := by
  unfold generate_schedule_for_evaluation
  rw [hp]
  dsimp only
  have hblen : (scheduleBoundaries (sortSchedule parsed)).length =
      (assessmentPositions (sortSchedule parsed)).length + 1 := rfl
  have hhi : pyIndex (scheduleBoundaries (sortSchedule parsed)) n = .error .indexError := by
    apply pyIndex_err_of_ge
    rw [hblen]
    push_cast
    omega
  rw [hhi]
  cases hlo : pyIndex (scheduleBoundaries (sortSchedule parsed)) (n - 1) with
  | error e =>
    have he := pyIndex_error_elim _ _ _ hlo
    subst he
    rfl
  | ok lo => rfl

/-- Witness for C6: a one-row schedule with no assessment markers and
evaluation number 1. -/
theorem schedule_window_index_error_on_excess_witness :
    generate_schedule_for_evaluation exSched6 1 "Large Group" = .error .indexError :=
  schedule_window_index_error_on_excess exSched6 1 "Large Group" exSched6
    (by decide) (by decide)

/-- C7 counterexample: an instructor who has a teaching assignment (session
`"7"`) that does not appear in the windowed schedule gets an empty session
list, not the `"No sessions found"` sentinel. -/
theorem sessions_empty_list_when_no_match :
    get_sessions_for_names c7Names c7Schedule c7Faculty = [⟨"Ann Lee", []⟩] ∧
    c7Faculty.filter (fun r => r.cLname = "Lee" ∧ r.cFname = "Ann") ≠ [] := by
  decide

/-- C7 (amended): `get_sessions_for_names` never fails and produces one entry
per instructor; the `"No sessions found"` sentinel is produced exactly for
instructors with zero teaching-assignment rows, while an instructor whose
assignments all fall outside the windowed schedule gets an empty list. -/
theorem sessions_sentinel_on_zero_assignments (names : List (String × String))
    (schedule : List ScheduleRow) (sessions : List FacultyRow) :
    (get_sessions_for_names names schedule sessions).length = names.length ∧
    ∀ i, i < names.length →
      sessions.filter (fun r => r.cLname = (names.getD i ("", "")).1 ∧
          r.cFname = (names.getD i ("", "")).2) = [] →
      ((get_sessions_for_names names schedule sessions).getD i ⟨"", []⟩).sessions =
        ["No sessions found"] := by
  constructor
  · unfold get_sessions_for_names
    exact List.length_map _ _
  · intro i hilt hfilt
    unfold get_sessions_for_names
    rw [List.getD_eq_getElem _ _ (by simpa [get_sessions_for_names] using hilt)]
    rw [List.getElem_map]
    rw [List.getD_eq_getElem _ _ hilt] at hfilt
    dsimp only
    rw [hfilt]
    rfl

/-- Witness for the C7 amended theorem: an instructor with zero assignment
rows yields exactly the sentinel. -/
theorem sessions_sentinel_on_zero_assignments_witness :
    ((get_sessions_for_names [("Lee", "Ann")] [] []).getD 0 ⟨"", []⟩).sessions =
      ["No sessions found"] :=
  (sessions_sentinel_on_zero_assignments [("Lee", "Ann")] [] []).2 0 (by decide) (by decide)

theorem commentsOf_map (l : List FeedbackRow) :
    (l.map (·.responseText)).filterMap (fun c =>
        match c with
        | PyVal.str v => if containsStr v "-----" then none else some v
        | _ => none) =
      l.filterMap (fun r =>
        match r.responseText with
        | PyVal.str v => if containsStr v "-----" then none else some v
        | _ => none) := by
  induction l with
  | nil => rfl
  | cons a t ih => simp only [List.map_cons, List.filterMap_cons, ih]

/-- C8: the Comment Collector keeps, in source row order, exactly the free-text
responses of the instructor that are strings not containing the `"-----"`
marker, substituting the single sentinel `["No comments"]` when none remain;
and on the example responses `["Great job", "-----", 42, "Needs work"]` it
returns `["Great job", "Needs work"]`. -/
theorem comment_collector_filter_order_sentinel (feedback : List FeedbackRow)
    (nm : String × String) (qs : List String) :
    ((generate_ratings_and_comments_for_name feedback nm qs).2.2 =
      if (feedback.filter (fun r => r.evaluateeLast = nm.1 ∧ r.evaluateeFirst = nm.2 ∧
            r.questionType = "Text")).filterMap
          (fun r => match r.responseText with
            | PyVal.str v => if containsStr v "-----" then none else some v
            | _ => none) = []
      then ["No comments"]
      else (feedback.filter (fun r => r.evaluateeLast = nm.1 ∧ r.evaluateeFirst = nm.2 ∧
            r.questionType = "Text")).filterMap
          (fun r => match r.responseText with
            | PyVal.str v => if containsStr v "-----" then none else some v
            | _ => none)) ∧
    (generate_ratings_and_comments_for_name c8Feedback ("Smith", "Jane") []).2.2 =
      ["Great job", "Needs work"] := by
  constructor
  · unfold generate_ratings_and_comments_for_name
    dsimp only
    rw [filter_name_type, commentsOf_map]
    by_cases hfc : (feedback.filter (fun r => r.evaluateeLast = nm.1 ∧ r.evaluateeFirst = nm.2 ∧
        r.questionType = "Text")).filterMap
        (fun r => match r.responseText with
          | PyVal.str v => if containsStr v "-----" then none else some v
          | _ => none) = []
    · rw [if_pos hfc]
      rw [hfc]
      rfl
    · rw [if_neg hfc]
      have hpos : 0 < ((feedback.filter (fun r => r.evaluateeLast = nm.1 ∧ r.evaluateeFirst = nm.2 ∧
          r.questionType = "Text")).filterMap
          (fun r => match r.responseText with
            | PyVal.str v => if containsStr v "-----" then none else some v
            | _ => none)).length := List.length_pos.mpr hfc
      rw [if_pos hpos]
  · decide

/-- C9: the Question Selector's output never contains a question text with the
`"offensive remarks"` or `"mistreatment"` substring, rating type or not. -/
theorem question_selector_excludes_sensitive (feedback : List FeedbackRow) (q : String)
    (hq : q ∈ generate_questions_from_evaluation feedback) :
    containsStr q "offensive remarks" = false ∧ containsStr q "mistreatment" = false := by
  unfold generate_questions_from_evaluation at hq
  rw [List.mem_filter] at hq
  obtain ⟨-, hq2⟩ := hq
  simp only [Bool.and_eq_true, Bool.not_eq_true'] at hq2
  exact hq2

/-- Witness for C9 at a concrete one-question table. -/
theorem question_selector_excludes_sensitive_witness :
    containsStr "How clear was the presentation" "offensive remarks" = false ∧
    containsStr "How clear was the presentation" "mistreatment" = false :=
  question_selector_excludes_sensitive c9Feedback "How clear was the presentation" (by decide)

/-- C10: the Schedule Windower mutates its input in place: for any nonempty
raw (string-cell) schedule, the caller's table after a successful call — the
parsed, re-sorted, re-indexed table — is no longer the table that was passed
in. -/
theorem schedule_windower_mutates_caller_schedule (schedule : List ScheduleRow) (n : Int)
    (ft : String) (post win : List ScheduleRow) (hne : schedule ≠ [])
    (hraw : ∀ r ∈ schedule, ∃ d, r.date = PyVal.str d)
    (hok : generate_schedule_for_evaluation schedule n ft = .ok (post, win)) :
    post ≠ schedule := by
  unfold generate_schedule_for_evaluation at hok
  cases hp : parseSchedule schedule with
  | none => rw [hp] at hok; cases hok
  | some parsed =>
    rw [hp] at hok
    dsimp only at hok
    cases hlo : pyIndex (scheduleBoundaries (sortSchedule parsed)) (n - 1) with
    | error e => rw [hlo] at hok; cases hok
    | ok lo =>
      rw [hlo] at hok
      cases hhi : pyIndex (scheduleBoundaries (sortSchedule parsed)) n with
      | error e => rw [hhi] at hok; cases hok
      | ok hi =>
        rw [hhi] at hok
        dsimp only at hok
        injection hok with hok2
        have hpost : sortSchedule parsed = post := congrArg Prod.fst hok2
        intro heq
        obtain ⟨r, hr⟩ := List.exists_mem_of_ne_nil schedule hne
        obtain ⟨d, hdate⟩ := hraw r hr
        have hrpost : r ∈ post := heq ▸ hr
        rw [← hpost] at hrpost
        unfold sortSchedule at hrpost
        have hrparsed : r ∈ parsed := (List.mem_insertionSort _).mp hrpost
        obtain ⟨q2, hq2⟩ := parseSchedule_mem_num schedule parsed hp r hrparsed
        rw [hdate] at hq2
        cases hq2

/-- Witness for C10: a concrete raw two-row schedule whose post-state after
the call differs from the input. -/
theorem schedule_windower_mutates_caller_schedule_witness : w10post ≠ w10sched :=
  schedule_windower_mutates_caller_schedule w10sched 1 "Large Group" w10post w10win
    (by decide)
    (by
      intro r hr
      rcases List.mem_cons.mp hr with h | h
      · exact ⟨"2024-01-02", by rw [h]⟩
      · rcases List.mem_cons.mp h with h2 | h2
        · exact ⟨"2024-01-01", by rw [h2]⟩
        · cases h2)
    (by decide)
